import Mathlib

/-!
# keadm gettoken

A shallow embedding of `keadm/cmd/keadm/app/cmd/cloud/gettoken.go` and the
properties of the `gettoken` command.

The command talks to three collaborators that live outside the file: the
kubeconfig loader (`clientcmd.BuildConfigFromFlags`), the client factory
(`kubernetes.NewForConfig`) and the API server (`Secrets(ns).Get`), and it has
three output channels: the writer `out`, standard output (`fmt.Println`) and
the klog warning log.  The collaborators are the fields of `Env`; every call
to a collaborator and every output is recorded, in program order, as an
`Event`.  Each embedded function returns its Go result together with the list
of events it emitted.
-/

namespace Gettoken

/-! ## Data model -/

/-- One byte. -/
abbrev Byte := Fin 256

/-- A Go `[]byte`; the nil slice and the empty slice are both `[]`. -/
abbrev Bytes := List Byte

/-- A non-nil Go `error` value; a nil error is `none : Option Error`. -/
structure Error where
  msg : String
  deriving DecidableEq, Repr

/-- Equality of Go results `(value, err)` is decidable. -/
instance instDecidableEqExcept {ε α : Type} [DecidableEq ε] [DecidableEq α] :
    DecidableEq (Except ε α)
  | .error a, .error b =>
    if h : a = b then isTrue (by rw [h]) else isFalse (fun h2 => h (by cases h2; rfl))
  | .ok a, .ok b =>
    if h : a = b then isTrue (by rw [h]) else isFalse (fun h2 => h (by cases h2; rfl))
  | .error _, .ok _ => isFalse (fun h => by cases h)
  | .ok _, .error _ => isFalse (fun h => by cases h)

/-- A `float32` value, kept as its IEEE-754 bit pattern.  The command only
stores such a value, it never computes with one. -/
structure Float32 where
  bits : Nat
  deriving DecidableEq, Repr

/-- The `rest.TLSClientConfig` part of a connection configuration. -/
structure TLSClientConfig where
  Insecure : Bool
  ServerName : String
  CertFile : String
  KeyFile : String
  CAFile : String
  CertData : Bytes
  KeyData : Bytes
  CAData : Bytes
  deriving DecidableEq, Repr

/-- The `rest.Config` connection configuration (client-go): endpoint,
authentication material, content negotiation and rate-limit parameters.
`AcceptContentTypes`, `ContentType` and `GroupVersion` are the promoted fields
of the embedded `ContentConfig`. -/
structure Config where
  Host : String
  APIPath : String
  AcceptContentTypes : String
  ContentType : String
  GroupVersion : String
  Username : String
  Password : String
  BearerToken : String
  BearerTokenFile : String
  TLS : TLSClientConfig
  UserAgent : String
  QPS : Float32
  Burst : Int
  Timeout : Int
  deriving DecidableEq, Repr

/-- The handle returned by `kubernetes.NewForConfig`. -/
structure Clientset where
  handle : Nat
  deriving DecidableEq, Repr

/-- A Go `map[string][]byte`: `none` is the nil map, `some kvs` a map holding
the bindings `kvs` (the first binding of a key is the one in force). -/
abbrev DataMap := Option (List (String × Bytes))

/-- Go map indexing `m[key]`: the value bound to `key`, and the zero value
(the nil slice) when `m` is nil or has no entry for `key`. -/
def DataMap.index (m : DataMap) (key : String) : Bytes :=
  match m with
  | none => []
  | some kvs => (kvs.lookup key).getD []

/-- Whether the map has an entry for `key` (the `ok` of `v, ok := m[key]`). -/
def DataMap.has (m : DataMap) (key : String) : Bool :=
  match m with
  | none => false
  | some kvs => (kvs.lookup key).isSome

/-- The `v1.Secret` record: only the fields the command can observe. -/
structure Secret where
  Namespace : String
  Name : String
  Data : DataMap
  deriving DecidableEq, Repr

/-- The `common.GettokenOptions` struct. -/
structure GettokenOptions where
  Kubeconfig : String
  deriving DecidableEq, Repr

/-- The constants of the packages `common/constants` and
`keadm/cmd/keadm/app/cmd/common` that the file refers to.  Their declarations
are not part of the file, so they are parameters of the embedding.
`DefaultKubeQPS` is an untyped numeric constant. -/
structure Consts where
  NameSpaceCloudCore : String
  TokenSecretName : String
  TokenDataName : String
  DefaultKubeConfig : String
  KubeConfig : String
  DefaultKubeQPS : Rat
  DefaultKubeBurst : Int
  DefaultKubeContentType : String

/-- An `io.Writer`: `Write p` answers the number of bytes it reports written
and an error (`none` for nil). -/
structure Writer where
  Write : Bytes → Nat × Option Error

/-- The collaborators outside the file.  `float32` is the Go conversion of a
numeric constant to `float32`. -/
structure Env where
  BuildConfigFromFlags : String → String → Except Error Config
  NewForConfig : Config → Except Error Clientset
  SecretsGet : Clientset → String → String → Except Error Secret
  float32 : Rat → Float32

/-- What the command does to the outside, in program order. -/
inductive Event where
  /-- A call of `clientcmd.BuildConfigFromFlags(masterUrl, path)`. -/
  | buildConfig (masterUrl : String) (path : String)
  /-- A call of `kubernetes.NewForConfig(c)`. -/
  | newForConfig (c : Config)
  /-- A request `client.CoreV1().Secrets(ns).Get(name, ...)`. -/
  | getSecret (client : Clientset) (ns : String) (name : String)
  /-- A message logged with `klog.Warningf`. -/
  | klogWarning (msg : String)
  /-- A line printed on standard output with `fmt.Println`. -/
  | println (line : String)
  /-- A call of `out.Write(data)` on the output writer of the command. -/
  | write (data : Bytes)
  deriving DecidableEq, Repr

/-- The events of one run. -/
abbrev Log := List Event

/-! ## The functions of gettoken.go -/

def gettokenLongDescription : String :=
  "\n\"keadm gettoken\" command prints the token to use for establishing bidirectional trust between edge nodes and cloudcore. \nA token can be used when a edge node is about to join the cluster. With this token the cloudcore then approve the \ncertificate request.\n"

def gettokenExample : String :=
  "\nkeadm gettoken --kube-config = /root/.kube/config\n- kube-config is the absolute path of kubeconfig which used to build secure connectivity between keadm and kube-apiserver\nto get the token. \n"

/-- Function newGettokenOptions: fresh options carrying the default kubeconfig path. -/
def newGettokenOptions (K : Consts) : GettokenOptions :=
  let opts : GettokenOptions := { Kubeconfig := "" }
  { opts with Kubeconfig := K.DefaultKubeConfig }

/-- Function kubeConfig: load the configuration at the path, then overwrite QPS, Burst
and ContentType with the fixed constants. -/
def kubeConfig (K : Consts) (E : Env) (kubeconfigPath : String) :
    Except Error Config × Log :=
  match E.BuildConfigFromFlags "" kubeconfigPath with
  | .error err => (.error err, [.buildConfig "" kubeconfigPath])
  | .ok kubeConfig =>
    let kubeConfig := { kubeConfig with QPS := E.float32 K.DefaultKubeQPS }
    let kubeConfig := { kubeConfig with Burst := K.DefaultKubeBurst }
    let kubeConfig := { kubeConfig with ContentType := K.DefaultKubeContentType }
    (.ok kubeConfig, [.buildConfig "" kubeconfigPath])

/-- Function kubeClient: the client built from the configuration at the path. -/
def kubeClient (K : Consts) (E : Env) (kubeConfigPath : String) :
    Except Error Clientset × Log :=
  match kubeConfig K E kubeConfigPath with
  | (.error err, l) =>
    (.error err, l ++ [.klogWarning ("get kube config failed with error: " ++ err.msg)])
  | (.ok kubeConfig, l) =>
    (E.NewForConfig kubeConfig, l ++ [.newForConfig kubeConfig])

/-- Function queryToken: gets the token from k8s. -/
def queryToken (K : Consts) (E : Env) (ns : String) (name : String)
    (kubeConfigPath : String) : Except Error Bytes × Log :=
  match kubeClient K E kubeConfigPath with
  | (.error err, l) => (.error err, l)
  | (.ok client, l) =>
    match E.SecretsGet client ns name with
    | .error err => (.error err, l ++ [.getSecret client ns name])
    | .ok secret =>
      (.ok (secret.Data.index K.TokenDataName), l ++ [.getSecret client ns name])

/-- Function showToken: prints the token. -/
def showToken (data : Bytes) (out : Writer) : Option Error × Log :=
  match (out.Write data).2 with
  | some err => (some err, [.write data])
  | none => (none, [.write data])

/-- The `RunE` closure of the command built by `NewGettoken`; `init` is the
current content of the options the closure captured. -/
def RunE (K : Consts) (E : Env) (out : Writer) (init : GettokenOptions)
    (_args : List String) : Option Error × Log :=
  match queryToken K E K.NameSpaceCloudCore K.TokenSecretName init.Kubeconfig with
  | (.error err, l) => (some err, l ++ [.println "failed to get token"])
  | (.ok token, l) =>
    let r := showToken token out
    (r.1, l ++ r.2)

/-- A string flag registered with `Flags().StringVar`; its target is the
`Kubeconfig` field of the command's options. -/
structure StringFlag where
  name : String
  value : String
  usage : String
  deriving DecidableEq, Repr

/-- The part of a `cobra.Command` that the file fills in.  `opts` is the
options struct that both the flag and the `RunE` closure point to. -/
structure Command where
  Use : String
  Short : String
  Long : String
  Example : String
  RunE : GettokenOptions → List String → Option Error × Log
  flags : List StringFlag
  opts : GettokenOptions

/-- Function addGettokenFlags: registers the kube-config flag, bound to
`gettokenOptions.Kubeconfig`, with that field's current value as default.
`StringVar` stores the default through the pointer. -/
def addGettokenFlags (K : Consts) (cmd : Command) (gettokenOptions : GettokenOptions) :
    Command :=
  { cmd with
    flags := cmd.flags ++ [{ name := K.KubeConfig, value := gettokenOptions.Kubeconfig,
                             usage := "Use this key to set kube-config path, eg: $HOME/.kube/config" }]
    opts := { gettokenOptions with Kubeconfig := gettokenOptions.Kubeconfig } }

/-- Function NewGettoken: builds the command; `init = none` is the nil pointer. -/
def NewGettoken (K : Consts) (E : Env) (out : Writer) (init : Option GettokenOptions) :
    Command :=
  let init := match init with
    | none => newGettokenOptions K
    | some o => o
  let cmd : Command :=
    { Use := "gettoken"
      Short := "To get the token for edge nodes to join the cluster"
      Long := gettokenLongDescription
      Example := gettokenLongDescription
      RunE := fun cur args => RunE K E out cur args
      flags := []
      opts := init }
  addGettokenFlags K cmd init

/-- Running the command the way cobra does, reduced to what this command uses:
a value given for the registered flag on the command line is stored into the
options (`flag = none` when the flag is left unset), then `RunE` is called
with the positional arguments. -/
def Command.execute (cmd : Command) (flag : Option String) (args : List String) :
    Option Error × Log :=
  let opts := match flag with
    | none => cmd.opts
    | some v => { cmd.opts with Kubeconfig := v }
  cmd.RunE opts args

/-! ## Derived observations on a log -/

/-- The data of every `Write` call on the output writer, in order. -/
def writes : Log → List Bytes
  | [] => []
  | .write d :: l => d :: writes l
  | _ :: l => writes l

/-- The lines printed with `fmt.Println`, in order. -/
def printed : Log → List String
  | [] => []
  | .println s :: l => s :: printed l
  | _ :: l => printed l

/-- The klog warnings, in order. -/
def warnings : Log → List String
  | [] => []
  | .klogWarning s :: l => s :: warnings l
  | _ :: l => warnings l

/-- The paths handed to the kubeconfig loader, in order. -/
def loadedPaths : Log → List String
  | [] => []
  | .buildConfig _ p :: l => p :: loadedPaths l
  | _ :: l => loadedPaths l

/-- The configurations handed to the client factory, in order. -/
def clientsBuilt : Log → List Config
  | [] => []
  | .newForConfig c :: l => c :: clientsBuilt l
  | _ :: l => clientsBuilt l

/-- The (namespace, name) pairs of the get-secret requests, in order. -/
def requests : Log → List (String × String)
  | [] => []
  | .getSecret _ ns name :: l => (ns, name) :: requests l
  | _ :: l => requests l

/-! ## A concrete setting -/

/-- Modelled from the spec: the values of the constants of the `common`
package (namespace `kubeedge`, secret `tokensecret`, data key `token`, default
path `/root/.kube/config`, flag `kube-config`); their declarations are not in
the file.  The spec names no tuning values; 100, 200 and the protobuf content
type stand for them. -/
def specConsts : Consts :=
  { NameSpaceCloudCore := "kubeedge"
    TokenSecretName := "tokensecret"
    TokenDataName := "token"
    DefaultKubeConfig := "/root/.kube/config"
    KubeConfig := "kube-config"
    DefaultKubeQPS := 100
    DefaultKubeBurst := 200
    DefaultKubeContentType := "application/vnd.kubernetes.protobuf" }

/-- A configuration as a kubeconfig file might describe it. -/
def sampleConfig : Config :=
  { Host := "https://10.0.0.1:6443"
    APIPath := ""
    AcceptContentTypes := "application/json"
    ContentType := "application/json"
    GroupVersion := ""
    Username := ""
    Password := ""
    BearerToken := "s3cr3t"
    BearerTokenFile := ""
    TLS := { Insecure := false, ServerName := "", CertFile := "", KeyFile := "",
             CAFile := "/etc/ca.crt", CertData := [], KeyData := [], CAData := [] }
    UserAgent := "keadm"
    QPS := ⟨0x40a00000⟩
    Burst := 10
    Timeout := 0 }

/-- The bytes of the ASCII text `abc123`. -/
def abc123 : Bytes := [97, 98, 99, 49, 50, 51]

/-- A writer that accepts everything. -/
def okWriter : Writer := { Write := fun p => (p.length, none) }

/-- A writer whose every `Write` fails (a closed pipe). -/
def brokenWriter : Writer := { Write := fun _ => (0, some ⟨"write: broken pipe"⟩) }

/-- A writer that reports one byte fewer than it was given, and no error. -/
def shortWriter : Writer := { Write := fun p => (p.length - 1, none) }

/-- A reachable control plane: the default path loads `sampleConfig`, every
other path is missing; the client is built; the secret `tokensecret` in
`kubeedge` carries `data` and every other secret is not found. -/
def goodEnv (data : DataMap) : Env :=
  { BuildConfigFromFlags := fun _ p =>
      if p = "/root/.kube/config" then .ok sampleConfig
      else .error ⟨"stat " ++ p ++ ": no such file or directory"⟩
    NewForConfig := fun _ => .ok ⟨1⟩
    SecretsGet := fun _ ns name =>
      if ns = "kubeedge" ∧ name = "tokensecret" then
        .ok { Namespace := ns, Name := name, Data := data }
      else .error ⟨"secrets \"" ++ name ++ "\" not found"⟩
    float32 := fun _ => ⟨0x42c80000⟩ }

/-- As `goodEnv`, but the client factory rejects the configuration. -/
def noClientEnv : Env :=
  { goodEnv none with
    NewForConfig := fun _ => .error ⟨"host must be a URL or a host:port pair"⟩ }

/-- As `goodEnv`, but the API server is unreachable. -/
def noFetchEnv : Env :=
  { goodEnv none with
    SecretsGet := fun _ _ _ => .error ⟨"dial tcp 10.0.0.1:6443: connect: network is unreachable"⟩ }

/-! ## Step lemmas -/

theorem kubeConfig_log (K : Consts) (E : Env) (p : String) :
    (kubeConfig K E p).2 = [.buildConfig "" p] := by
  unfold kubeConfig
  cases E.BuildConfigFromFlags "" p <;> rfl

theorem kubeConfig_error_iff (K : Consts) (E : Env) (p : String) (e : Error) :
    (kubeConfig K E p).1 = .error e ↔ E.BuildConfigFromFlags "" p = .error e := by
  unfold kubeConfig
  cases h : E.BuildConfigFromFlags "" p <;> simp

theorem kubeClient_of_config_error (K : Consts) (E : Env) (p : String) (e : Error)
    (h : (kubeConfig K E p).1 = .error e) :
    kubeClient K E p =
      (.error e, [.buildConfig "" p,
                  .klogWarning ("get kube config failed with error: " ++ e.msg)]) := by
  have hl := kubeConfig_log K E p
  unfold kubeClient
  rcases hk : kubeConfig K E p with ⟨r, l⟩
  rw [hk] at h hl
  simp only at h hl
  subst h hl
  rfl

theorem kubeClient_of_config_ok (K : Consts) (E : Env) (p : String) (cfg : Config)
    (h : (kubeConfig K E p).1 = .ok cfg) :
    kubeClient K E p = (E.NewForConfig cfg, [.buildConfig "" p, .newForConfig cfg]) := by
  have hl := kubeConfig_log K E p
  unfold kubeClient
  rcases hk : kubeConfig K E p with ⟨r, l⟩
  rw [hk] at h hl
  simp only at h hl
  subst h hl
  rfl

theorem queryToken_of_client_error (K : Consts) (E : Env) (ns name p : String) (e : Error)
    (l : Log) (h : kubeClient K E p = (.error e, l)) :
    queryToken K E ns name p = (.error e, l) := by
  unfold queryToken
  rw [h]

theorem queryToken_of_client_ok (K : Consts) (E : Env) (ns name p : String)
    (client : Clientset) (l : Log) (h : kubeClient K E p = (.ok client, l)) :
    queryToken K E ns name p =
      (match E.SecretsGet client ns name with
        | .error err => .error err
        | .ok secret => .ok (secret.Data.index K.TokenDataName),
       l ++ [.getSecret client ns name]) := by
  unfold queryToken
  rw [h]
  simp only
  cases E.SecretsGet client ns name <;> rfl

theorem RunE_of_query_error (K : Consts) (E : Env) (out : Writer) (init : GettokenOptions)
    (args : List String) (e : Error) (l : Log)
    (h : queryToken K E K.NameSpaceCloudCore K.TokenSecretName init.Kubeconfig = (.error e, l)) :
    RunE K E out init args = (some e, l ++ [.println "failed to get token"]) := by
  unfold RunE
  rw [h]

theorem RunE_of_query_ok (K : Consts) (E : Env) (out : Writer) (init : GettokenOptions)
    (args : List String) (token : Bytes) (l : Log)
    (h : queryToken K E K.NameSpaceCloudCore K.TokenSecretName init.Kubeconfig = (.ok token, l)) :
    RunE K E out init args = ((out.Write token).2, l ++ [.write token]) := by
  unfold RunE
  rw [h]
  simp only [showToken]
  cases (out.Write token).2 <;> rfl

theorem kubeClient_log_of_ok (K : Consts) (E : Env) (p : String) (cfg : Config)
    (client : Clientset) (hload : (kubeConfig K E p).1 = .ok cfg)
    (hclient : E.NewForConfig cfg = .ok client) :
    kubeClient K E p = (.ok client, [.buildConfig "" p, .newForConfig cfg]) := by
  rw [kubeClient_of_config_ok K E p cfg hload, hclient]

/-- The command run with the flag given is `RunE` on the flag's value. -/
theorem execute_flag (K : Consts) (E : Env) (out : Writer) (init : Option GettokenOptions)
    (v : String) (args : List String) :
    (NewGettoken K E out init).execute (some v) args = RunE K E out ⟨v⟩ args := by
  cases init <;> rfl

/-- The command run with the flag unset is `RunE` on the options it was built with. -/
theorem execute_noflag (K : Consts) (E : Env) (out : Writer) (o : GettokenOptions)
    (args : List String) :
    (NewGettoken K E out (some o)).execute none args = RunE K E out o args := by
  rfl

/-- The four ways a run of `RunE` can go, each with its result and its whole log. -/
theorem RunE_outcome (K : Consts) (E : Env) (out : Writer) (init : GettokenOptions)
    (args : List String) :
    (∃ e, (kubeConfig K E init.Kubeconfig).1 = .error e ∧
      queryToken K E K.NameSpaceCloudCore K.TokenSecretName init.Kubeconfig =
        (.error e, [.buildConfig "" init.Kubeconfig,
          .klogWarning ("get kube config failed with error: " ++ e.msg)]) ∧
      RunE K E out init args =
        (some e, [.buildConfig "" init.Kubeconfig,
          .klogWarning ("get kube config failed with error: " ++ e.msg),
          .println "failed to get token"])) ∨
    (∃ cfg e, (kubeConfig K E init.Kubeconfig).1 = .ok cfg ∧
      E.NewForConfig cfg = .error e ∧
      queryToken K E K.NameSpaceCloudCore K.TokenSecretName init.Kubeconfig =
        (.error e, [.buildConfig "" init.Kubeconfig, .newForConfig cfg]) ∧
      RunE K E out init args =
        (some e, [.buildConfig "" init.Kubeconfig, .newForConfig cfg,
          .println "failed to get token"])) ∨
    (∃ cfg client e, (kubeConfig K E init.Kubeconfig).1 = .ok cfg ∧
      E.NewForConfig cfg = .ok client ∧
      E.SecretsGet client K.NameSpaceCloudCore K.TokenSecretName = .error e ∧
      queryToken K E K.NameSpaceCloudCore K.TokenSecretName init.Kubeconfig =
        (.error e, [.buildConfig "" init.Kubeconfig, .newForConfig cfg,
          .getSecret client K.NameSpaceCloudCore K.TokenSecretName]) ∧
      RunE K E out init args =
        (some e, [.buildConfig "" init.Kubeconfig, .newForConfig cfg,
          .getSecret client K.NameSpaceCloudCore K.TokenSecretName,
          .println "failed to get token"])) ∨
    (∃ cfg client secret, (kubeConfig K E init.Kubeconfig).1 = .ok cfg ∧
      E.NewForConfig cfg = .ok client ∧
      E.SecretsGet client K.NameSpaceCloudCore K.TokenSecretName = .ok secret ∧
      queryToken K E K.NameSpaceCloudCore K.TokenSecretName init.Kubeconfig =
        (.ok (secret.Data.index K.TokenDataName),
          [.buildConfig "" init.Kubeconfig, .newForConfig cfg,
           .getSecret client K.NameSpaceCloudCore K.TokenSecretName]) ∧
      RunE K E out init args =
        ((out.Write (secret.Data.index K.TokenDataName)).2,
          [.buildConfig "" init.Kubeconfig, .newForConfig cfg,
           .getSecret client K.NameSpaceCloudCore K.TokenSecretName,
           .write (secret.Data.index K.TokenDataName)])) := by
  cases hk : (kubeConfig K E init.Kubeconfig).1 with
  | error e =>
    have hc := kubeClient_of_config_error K E _ e hk
    have hq := queryToken_of_client_error K E K.NameSpaceCloudCore K.TokenSecretName _ e _ hc
    exact Or.inl ⟨e, rfl, hq, RunE_of_query_error K E out init args e _ hq⟩
  | ok cfg =>
    have hc := kubeClient_of_config_ok K E _ cfg hk
    cases hn : E.NewForConfig cfg with
    | error e =>
      rw [hn] at hc
      have hq := queryToken_of_client_error K E K.NameSpaceCloudCore K.TokenSecretName _ e _ hc
      exact Or.inr (Or.inl ⟨cfg, e, rfl, hn, hq, RunE_of_query_error K E out init args e _ hq⟩)
    | ok client =>
      rw [hn] at hc
      have hq := queryToken_of_client_ok K E K.NameSpaceCloudCore K.TokenSecretName _ client _ hc
      cases hg : E.SecretsGet client K.NameSpaceCloudCore K.TokenSecretName with
      | error e =>
        rw [hg] at hq
        exact Or.inr (Or.inr (Or.inl
          ⟨cfg, client, e, rfl, hn, hg, hq, RunE_of_query_error K E out init args e _ hq⟩))
      | ok secret =>
        rw [hg] at hq
        exact Or.inr (Or.inr (Or.inr
          ⟨cfg, client, secret, rfl, hn, hg, hq, RunE_of_query_ok K E out init args _ _ hq⟩))

/-! ## The success path -/

/-- C1: for every config path and every byte sequence B, if loading the
configuration succeeds, building the client succeeds, the get-secret request for
(NameSpaceCloudCore, TokenSecretName) returns a secret whose Data maps the token
key to B, and the writer accepts the write, then RunE returns no error and the
output writer receives exactly one Write, whose bytes are B: nothing is added
before or after. -/
theorem RunE_writes_exactly_the_token (K : Consts) (E : Env) (out : Writer)
    (path : String) (args : List String) (B : Bytes)
    (cfg : Config) (client : Clientset) (secret : Secret) (kvs : List (String × Bytes))
    (hload : (kubeConfig K E path).1 = .ok cfg)
    (hclient : E.NewForConfig cfg = .ok client)
    (hget : E.SecretsGet client K.NameSpaceCloudCore K.TokenSecretName = .ok secret)
    (hdata : secret.Data = some kvs)
    (hkey : kvs.lookup K.TokenDataName = some B)
    (hwrite : (out.Write B).2 = none) :
    (RunE K E out ⟨path⟩ args).1 = none ∧
    writes (RunE K E out ⟨path⟩ args).2 = [B] := by
  have hc := kubeClient_log_of_ok K E path cfg client hload hclient
  have hq := queryToken_of_client_ok K E K.NameSpaceCloudCore K.TokenSecretName path client _ hc
  rw [hget] at hq
  have hB : secret.Data.index K.TokenDataName = B := by
    simp [DataMap.index, hdata, hkey]
  simp only [hB] at hq
  rw [RunE_of_query_ok K E out ⟨path⟩ args B _ hq, hwrite]
  exact ⟨rfl, rfl⟩

/-- C1, at the spec's example: data[token] = "abc123" gives output "abc123". -/
theorem RunE_writes_exactly_the_token_witness :
    (RunE specConsts (goodEnv (some [("token", abc123)])) okWriter ⟨"/root/.kube/config"⟩ []).1
      = none ∧
    writes (RunE specConsts (goodEnv (some [("token", abc123)])) okWriter
      ⟨"/root/.kube/config"⟩ []).2 = [abc123] :=
  RunE_writes_exactly_the_token specConsts (goodEnv (some [("token", abc123)])) okWriter
    "/root/.kube/config" [] abc123
    { sampleConfig with QPS := ⟨0x42c80000⟩, Burst := 200,
                        ContentType := "application/vnd.kubernetes.protobuf" }
    ⟨1⟩ { Namespace := "kubeedge", Name := "tokensecret", Data := some [("token", abc123)] }
    [("token", abc123)] (by decide) (by decide) (by decide) (by decide) (by decide) (by decide)

/-! ## A secret without the token key -/

/-- C2, as amended: when the get-secret request succeeds with a secret whose
Data has no entry for the token key (the nil map included), queryToken returns
the empty byte sequence with a nil error, the command calls Write exactly once,
with zero bytes, and the command returns what that Write returns as its error:
success when the writer accepts the empty write. -/
theorem missing_token_key_gives_empty_write (K : Consts) (E : Env) (out : Writer)
    (path : String) (args : List String)
    (cfg : Config) (client : Clientset) (secret : Secret)
    (hload : (kubeConfig K E path).1 = .ok cfg)
    (hclient : E.NewForConfig cfg = .ok client)
    (hget : E.SecretsGet client K.NameSpaceCloudCore K.TokenSecretName = .ok secret)
    (hkey : secret.Data.has K.TokenDataName = false) :
    (queryToken K E K.NameSpaceCloudCore K.TokenSecretName path).1 = .ok [] ∧
    writes (RunE K E out ⟨path⟩ args).2 = [[]] ∧
    (RunE K E out ⟨path⟩ args).1 = (out.Write []).2 ∧
    ((out.Write []).2 = none → (RunE K E out ⟨path⟩ args).1 = none) := by
  have hc := kubeClient_log_of_ok K E path cfg client hload hclient
  have hq := queryToken_of_client_ok K E K.NameSpaceCloudCore K.TokenSecretName path client _ hc
  rw [hget] at hq
  have hB : secret.Data.index K.TokenDataName = [] := by
    unfold DataMap.has at hkey
    unfold DataMap.index
    cases hd : secret.Data with
    | none => rfl
    | some kvs =>
      rw [hd] at hkey
      cases hl : kvs.lookup K.TokenDataName with
      | none => simp [hl]
      | some v => simp [hl] at hkey
  simp only [hB] at hq
  have hr := RunE_of_query_ok K E out ⟨path⟩ args [] _ hq
  rw [hq, hr]
  refine ⟨rfl, rfl, rfl, fun h => h⟩

/-- C2 as amended, at a reachable control plane whose secret has a nil Data map
and a writer that accepts the write. -/
theorem missing_token_key_gives_empty_write_witness :
    (queryToken specConsts (goodEnv none) "kubeedge" "tokensecret" "/root/.kube/config").1
      = .ok [] ∧
    writes (RunE specConsts (goodEnv none) okWriter ⟨"/root/.kube/config"⟩ []).2 = [[]] ∧
    (RunE specConsts (goodEnv none) okWriter ⟨"/root/.kube/config"⟩ []).1 = none :=
  have h := missing_token_key_gives_empty_write specConsts (goodEnv none) okWriter
    "/root/.kube/config" []
    { sampleConfig with QPS := ⟨0x42c80000⟩, Burst := 200,
                        ContentType := "application/vnd.kubernetes.protobuf" }
    ⟨1⟩ { Namespace := "kubeedge", Name := "tokensecret", Data := none }
    (by decide) (by decide) (by decide) (by decide)
  ⟨h.1, h.2.1, h.2.2.2 (by decide)⟩

/-- C2 as stated fails: the get-secret request succeeds with a secret that has
no token entry, yet with a writer whose Write fails the command does not return
success, it returns the Write error. -/
theorem missing_token_key_broken_writer :
    (kubeClient specConsts (goodEnv none) "/root/.kube/config").1 = .ok ⟨1⟩ ∧
    (goodEnv none).SecretsGet ⟨1⟩ specConsts.NameSpaceCloudCore specConsts.TokenSecretName
      = .ok { Namespace := "kubeedge", Name := "tokensecret", Data := none } ∧
    DataMap.has none specConsts.TokenDataName = false ∧
    (RunE specConsts (goodEnv none) brokenWriter ⟨"/root/.kube/config"⟩ []).1
      = some ⟨"write: broken pipe"⟩ ∧
    (RunE specConsts (goodEnv none) brokenWriter ⟨"/root/.kube/config"⟩ []).1 ≠ none := by
  decide

/-! ## Failures -/

/-- C3: when loading the configuration at the path fails with error e, then
kubeConfig, kubeClient, queryToken and RunE each return exactly e, no client is
built, no get-secret request is issued, and Write is never called on the output
writer. -/
theorem config_load_error_propagates (K : Consts) (E : Env) (out : Writer)
    (path : String) (args : List String) (e : Error)
    (h : E.BuildConfigFromFlags "" path = .error e) :
    (kubeConfig K E path).1 = .error e ∧
    (kubeClient K E path).1 = .error e ∧
    (∀ ns name, (queryToken K E ns name path).1 = .error e) ∧
    (RunE K E out ⟨path⟩ args).1 = some e ∧
    clientsBuilt (RunE K E out ⟨path⟩ args).2 = [] ∧
    requests (RunE K E out ⟨path⟩ args).2 = [] ∧
    writes (RunE K E out ⟨path⟩ args).2 = [] := by
  have hk := (kubeConfig_error_iff K E path e).2 h
  have hc := kubeClient_of_config_error K E path e hk
  have hq := fun ns name => queryToken_of_client_error K E ns name path e _ hc
  have hr := RunE_of_query_error K E out ⟨path⟩ args e _
    (hq K.NameSpaceCloudCore K.TokenSecretName)
  refine ⟨hk, ?_, ?_, ?_, ?_, ?_, ?_⟩
  · rw [hc]
  · intro ns name
    rw [hq ns name]
  all_goals rw [hr]
  all_goals rfl

/-- C3, at a path that does not exist. -/
theorem config_load_error_propagates_witness :
    (RunE specConsts (goodEnv none) okWriter ⟨"/no/such/file"⟩ []).1
      = some ⟨"stat /no/such/file: no such file or directory"⟩ ∧
    writes (RunE specConsts (goodEnv none) okWriter ⟨"/no/such/file"⟩ []).2 = [] :=
  have h := config_load_error_propagates specConsts (goodEnv none) okWriter "/no/such/file" []
    ⟨"stat /no/such/file: no such file or directory"⟩ (by decide)
  ⟨h.2.2.2.1, h.2.2.2.2.2.2⟩

/-- C4: when configuration loading and client construction succeed but the
get-secret request fails with error e, RunE returns exactly e, prints the line
"failed to get token" exactly once, as the last thing it does before
returning, and never calls Write on the output writer. -/
theorem fetch_error_propagates (K : Consts) (E : Env) (out : Writer)
    (path : String) (args : List String) (cfg : Config) (client : Clientset) (e : Error)
    (hload : (kubeConfig K E path).1 = .ok cfg)
    (hclient : E.NewForConfig cfg = .ok client)
    (hget : E.SecretsGet client K.NameSpaceCloudCore K.TokenSecretName = .error e) :
    (RunE K E out ⟨path⟩ args).1 = some e ∧
    printed (RunE K E out ⟨path⟩ args).2 = ["failed to get token"] ∧
    (RunE K E out ⟨path⟩ args).2.getLast? = some (.println "failed to get token") ∧
    writes (RunE K E out ⟨path⟩ args).2 = [] := by
  have hc := kubeClient_log_of_ok K E path cfg client hload hclient
  have hq := queryToken_of_client_ok K E K.NameSpaceCloudCore K.TokenSecretName path client _ hc
  rw [hget] at hq
  rw [RunE_of_query_error K E out ⟨path⟩ args e _ hq]
  exact ⟨rfl, rfl, rfl, rfl⟩

/-- C4, at an unreachable API server. -/
theorem fetch_error_propagates_witness :
    (RunE specConsts noFetchEnv okWriter ⟨"/root/.kube/config"⟩ []).1
      = some ⟨"dial tcp 10.0.0.1:6443: connect: network is unreachable"⟩ ∧
    printed (RunE specConsts noFetchEnv okWriter ⟨"/root/.kube/config"⟩ []).2
      = ["failed to get token"] ∧
    writes (RunE specConsts noFetchEnv okWriter ⟨"/root/.kube/config"⟩ []).2 = [] :=
  have h := fetch_error_propagates specConsts noFetchEnv okWriter "/root/.kube/config" []
    { sampleConfig with QPS := ⟨0x42c80000⟩, Burst := 200,
                        ContentType := "application/vnd.kubernetes.protobuf" }
    ⟨1⟩ ⟨"dial tcp 10.0.0.1:6443: connect: network is unreachable"⟩
    (by decide) (by decide) (by decide)
  ⟨h.1, h.2.1, h.2.2.2⟩

/-- C5: showToken returns exactly the error that the writer's Write returns, so
it fails if and only if Write fails; when the token was fetched and the write
fails with e, RunE returns e; a short write that reports fewer bytes than it
was given, with a nil error, counts as success. -/
theorem showToken_returns_the_write_error (K : Consts) (E : Env) (out : Writer)
    (data : Bytes) (path : String) (args : List String) :
    (showToken data out).1 = (out.Write data).2 ∧
    ((showToken data out).1 ≠ none ↔ (out.Write data).2 ≠ none) ∧
    (∀ token e, (queryToken K E K.NameSpaceCloudCore K.TokenSecretName path).1 = .ok token →
      (out.Write token).2 = some e → (RunE K E out ⟨path⟩ args).1 = some e) ∧
    (∀ n, out.Write data = (n, none) → n < data.length → (showToken data out).1 = none) := by
  have hs : ∀ d, (showToken d out).1 = (out.Write d).2 := by
    intro d
    unfold showToken
    cases (out.Write d).2 <;> rfl
  refine ⟨hs data, by rw [hs data], ?_, ?_⟩
  · intro token e hq hw
    rcases RunE_outcome K E out ⟨path⟩ args with
      ⟨e1, -, h1, -⟩ | ⟨cfg, e1, -, -, h1, -⟩ | ⟨cfg, client, e1, -, -, -, h1, -⟩ |
      ⟨cfg, client, secret, -, -, -, h1, h2⟩
    · rw [h1] at hq; cases hq
    · rw [h1] at hq; cases hq
    · rw [h1] at hq; cases hq
    · rw [h1] at hq
      simp only [Except.ok.injEq] at hq
      rw [h2, hq, hw]
  · intro n hw _
    rw [hs data, hw]

/-- C5, at a writer whose Write fails and at a writer that writes short. -/
theorem showToken_returns_the_write_error_witness :
    (RunE specConsts (goodEnv (some [("token", abc123)])) brokenWriter
      ⟨"/root/.kube/config"⟩ []).1 = some ⟨"write: broken pipe"⟩ ∧
    shortWriter.Write abc123 = (5, none) ∧
    (showToken abc123 shortWriter).1 = none :=
  have hb := showToken_returns_the_write_error specConsts (goodEnv (some [("token", abc123)]))
    brokenWriter abc123 "/root/.kube/config" []
  have hs := showToken_returns_the_write_error specConsts (goodEnv (some [("token", abc123)]))
    shortWriter abc123 "/root/.kube/config" []
  ⟨hb.2.2.1 abc123 ⟨"write: broken pipe"⟩ (by decide) (by decide), by decide,
   hs.2.2.2 5 (by decide) (by decide)⟩

/-! ## The configuration resolver -/

/-- C6: when the configuration at the path loads as c, kubeConfig returns a
configuration whose QPS, Burst and ContentType are the constants DefaultKubeQPS
(at type float32), DefaultKubeBurst and DefaultKubeContentType, whatever c
carried there, and whose every other field is that of c. -/
theorem kubeConfig_overrides_only_tuning (K : Consts) (E : Env) (path : String) (c : Config)
    (h : E.BuildConfigFromFlags "" path = .ok c) :
    ∃ r, (kubeConfig K E path).1 = .ok r ∧
      r.QPS = E.float32 K.DefaultKubeQPS ∧
      r.Burst = K.DefaultKubeBurst ∧
      r.ContentType = K.DefaultKubeContentType ∧
      r.Host = c.Host ∧ r.APIPath = c.APIPath ∧
      r.AcceptContentTypes = c.AcceptContentTypes ∧ r.GroupVersion = c.GroupVersion ∧
      r.Username = c.Username ∧ r.Password = c.Password ∧
      r.BearerToken = c.BearerToken ∧ r.BearerTokenFile = c.BearerTokenFile ∧
      r.TLS = c.TLS ∧ r.UserAgent = c.UserAgent ∧ r.Timeout = c.Timeout := by
  unfold kubeConfig
  rw [h]
  exact ⟨_, rfl, rfl, rfl, rfl, rfl, rfl, rfl, rfl, rfl, rfl, rfl, rfl, rfl, rfl, rfl⟩

/-- C6, at a kubeconfig that asks for JSON, QPS 5 and burst 10. -/
theorem kubeConfig_overrides_only_tuning_witness :
    sampleConfig.ContentType = "application/json" ∧ sampleConfig.Burst = 10 ∧
    ∃ r, (kubeConfig specConsts (goodEnv none) "/root/.kube/config").1 = .ok r ∧
      r.QPS = ⟨0x42c80000⟩ ∧ r.Burst = 200 ∧
      r.ContentType = "application/vnd.kubernetes.protobuf" ∧
      r.Host = "https://10.0.0.1:6443" ∧ r.BearerToken = "s3cr3t" :=
  have ⟨r, h⟩ := kubeConfig_overrides_only_tuning specConsts (goodEnv none)
    "/root/.kube/config" sampleConfig (by decide)
  ⟨by decide, by decide, r, h.1, h.2.1, h.2.2.1, h.2.2.2.1, h.2.2.2.2.1,
   h.2.2.2.2.2.2.2.2.2.2.1⟩

/-- The one path `RunE` hands to the kubeconfig loader is the options' Kubeconfig. -/
theorem RunE_loadedPaths (K : Consts) (E : Env) (out : Writer) (init : GettokenOptions)
    (args : List String) :
    loadedPaths (RunE K E out init args).2 = [init.Kubeconfig] := by
  rcases RunE_outcome K E out init args with
    ⟨e1, -, -, h⟩ | ⟨cfg, e1, -, -, -, h⟩ | ⟨cfg, client, e1, -, -, -, -, h⟩ |
    ⟨cfg, client, secret, -, -, -, -, h⟩ <;> rw [h] <;> rfl

/-- C7, as amended: the default path DefaultKubeConfig comes from NewGettoken
called with nil options, where it is the options' Kubeconfig and the default of
the kube-config flag, so that with the flag unset the configuration is loaded
from DefaultKubeConfig.  With options supplied, the flag's default is the
options' Kubeconfig and with the flag unset that path is loaded; a flag value is
loaded as given; kubeConfig loads the path it is given.  In each case the path
reaches the loader unchanged, the empty string included. -/
theorem default_path_comes_from_nil_options (K : Consts) (E : Env) (out : Writer)
    (args : List String) :
    loadedPaths ((NewGettoken K E out none).execute none args).2 = [K.DefaultKubeConfig] ∧
    (NewGettoken K E out none).opts.Kubeconfig = K.DefaultKubeConfig ∧
    (NewGettoken K E out none).flags.map (fun f => (f.name, f.value))
      = [(K.KubeConfig, K.DefaultKubeConfig)] ∧
    (∀ o : GettokenOptions,
      (NewGettoken K E out (some o)).flags.map (fun f => (f.name, f.value))
        = [(K.KubeConfig, o.Kubeconfig)] ∧
      loadedPaths ((NewGettoken K E out (some o)).execute none args).2 = [o.Kubeconfig]) ∧
    (∀ (init : Option GettokenOptions) (v : String),
      loadedPaths ((NewGettoken K E out init).execute (some v) args).2 = [v]) ∧
    (∀ p : String, (kubeConfig K E p).2 = [.buildConfig "" p]) := by
  refine ⟨?_, rfl, rfl, fun o => ⟨rfl, ?_⟩, fun init v => ?_, fun p => kubeConfig_log K E p⟩
  · exact RunE_loadedPaths K E out (newGettokenOptions K) args
  · exact RunE_loadedPaths K E out o args
  · rw [execute_flag]
    exact RunE_loadedPaths K E out ⟨v⟩ args

/-- C7 as stated fails: with the empty path, kubeConfig and the command built
from options whose Kubeconfig is empty hand the empty path to the loader, not
DefaultKubeConfig; here the default path would have loaded and the empty one
does not. -/
theorem empty_path_is_not_defaulted :
    specConsts.DefaultKubeConfig = "/root/.kube/config" ∧
    (kubeConfig specConsts (goodEnv none) "").2 = [.buildConfig "" ""] ∧
    specConsts.DefaultKubeConfig ∉ loadedPaths (kubeConfig specConsts (goodEnv none) "").2 ∧
    loadedPaths ((NewGettoken specConsts (goodEnv none) okWriter (some ⟨""⟩)).execute none []).2
      = [""] ∧
    (kubeConfig specConsts (goodEnv none) "").1
      = .error ⟨"stat : no such file or directory"⟩ ∧
    (kubeConfig specConsts (goodEnv none) specConsts.DefaultKubeConfig).1
      ≠ (kubeConfig specConsts (goodEnv none) "").1 := by
  decide

/-! ## Warnings and diagnostics -/

/-- C8, as amended: when configuration loading succeeds and client construction
fails with e, kubeClient returns e and neither kubeClient nor RunE logs a
warning; the klog warning "get kube config failed with error: ..." is logged
by kubeClient when configuration loading fails, and only then. -/
theorem kubeClient_warns_on_config_failure_only (K : Consts) (E : Env) (out : Writer)
    (path : String) (args : List String) :
    (∀ cfg e, (kubeConfig K E path).1 = .ok cfg → E.NewForConfig cfg = .error e →
      (kubeClient K E path).1 = .error e ∧
      warnings (kubeClient K E path).2 = [] ∧
      warnings (RunE K E out ⟨path⟩ args).2 = []) ∧
    (∀ e, (kubeConfig K E path).1 = .error e →
      (kubeClient K E path).1 = .error e ∧
      warnings (kubeClient K E path).2 = ["get kube config failed with error: " ++ e.msg]) ∧
    (warnings (kubeClient K E path).2 ≠ [] ↔ ∃ e, E.BuildConfigFromFlags "" path = .error e) := by
  refine ⟨?_, ?_, ?_⟩
  · intro cfg e hk hn
    have hc := kubeClient_of_config_ok K E path cfg hk
    rw [hn] at hc
    have hq := queryToken_of_client_error K E K.NameSpaceCloudCore K.TokenSecretName path e _ hc
    rw [hc, RunE_of_query_error K E out ⟨path⟩ args e _ hq]
    exact ⟨rfl, rfl, rfl⟩
  · intro e hk
    rw [kubeClient_of_config_error K E path e hk]
    exact ⟨rfl, rfl⟩
  · cases hk : (kubeConfig K E path).1 with
    | error e =>
      rw [kubeClient_of_config_error K E path e hk]
      have hb := (kubeConfig_error_iff K E path e).1 hk
      simp [warnings, hb]
    | ok cfg =>
      rw [kubeClient_of_config_ok K E path cfg hk]
      have hb : ∀ e, E.BuildConfigFromFlags "" path ≠ .error e := by
        intro e he
        rw [(kubeConfig_error_iff K E path e).2 he] at hk
        cases hk
      simp [warnings, hb]

/-- C8 as amended, at a client factory that rejects the configuration and at a
path that does not exist. -/
theorem kubeClient_warns_on_config_failure_only_witness :
    ((kubeClient specConsts noClientEnv "/root/.kube/config").1
        = .error ⟨"host must be a URL or a host:port pair"⟩ ∧
      warnings (kubeClient specConsts noClientEnv "/root/.kube/config").2 = [] ∧
      warnings (RunE specConsts noClientEnv okWriter ⟨"/root/.kube/config"⟩ []).2 = []) ∧
    ((kubeClient specConsts (goodEnv none) "/no/such/file").1
        = .error ⟨"stat /no/such/file: no such file or directory"⟩ ∧
      warnings (kubeClient specConsts (goodEnv none) "/no/such/file").2
        = ["get kube config failed with error: " ++
            (Error.mk "stat /no/such/file: no such file or directory").msg]) :=
  ⟨(kubeClient_warns_on_config_failure_only specConsts noClientEnv okWriter
      "/root/.kube/config" []).1
      { sampleConfig with QPS := ⟨0x42c80000⟩, Burst := 200,
                          ContentType := "application/vnd.kubernetes.protobuf" }
      ⟨"host must be a URL or a host:port pair"⟩ (by decide) (by decide),
   (kubeClient_warns_on_config_failure_only specConsts (goodEnv none) okWriter
      "/no/such/file" []).2.1
      ⟨"stat /no/such/file: no such file or directory"⟩ (by decide)⟩

/-- C8 as stated fails: configuration loading succeeds and client construction
fails, kubeClient returns the error, and no warning is logged, neither by
kubeClient nor by its callers up to RunE; the one warning of the file is logged
on the configuration-load failure path. -/
theorem client_construction_failure_logs_no_warning :
    (kubeConfig specConsts noClientEnv "/root/.kube/config").1
      = .ok { sampleConfig with QPS := ⟨0x42c80000⟩, Burst := 200,
                                ContentType := "application/vnd.kubernetes.protobuf" } ∧
    (kubeClient specConsts noClientEnv "/root/.kube/config").1
      = .error ⟨"host must be a URL or a host:port pair"⟩ ∧
    warnings (kubeClient specConsts noClientEnv "/root/.kube/config").2 = [] ∧
    warnings (RunE specConsts noClientEnv okWriter ⟨"/root/.kube/config"⟩ []).2 = [] ∧
    warnings (kubeClient specConsts noClientEnv "/no/such/file").2
      = ["get kube config failed with error: stat /no/such/file: no such file or directory"] := by
  decide

/-- C9, as amended: RunE prints "failed to get token" if and only if
queryToken returns an error, that is when configuration loading fails, when
client construction fails or when the get-secret request fails; it then prints
the line exactly once.  It prints nothing when queryToken succeeds, whether or
not the output write then fails. -/
theorem diagnostic_iff_queryToken_fails (K : Consts) (E : Env) (out : Writer)
    (path : String) (args : List String) :
    ("failed to get token" ∈ printed (RunE K E out ⟨path⟩ args).2 ↔
      ∃ e, (queryToken K E K.NameSpaceCloudCore K.TokenSecretName path).1 = .error e) ∧
    ((∃ e, (queryToken K E K.NameSpaceCloudCore K.TokenSecretName path).1 = .error e) ↔
      ((∃ e, E.BuildConfigFromFlags "" path = .error e) ∨
       (∃ cfg e, (kubeConfig K E path).1 = .ok cfg ∧ E.NewForConfig cfg = .error e) ∨
       (∃ cfg client e, (kubeConfig K E path).1 = .ok cfg ∧ E.NewForConfig cfg = .ok client ∧
          E.SecretsGet client K.NameSpaceCloudCore K.TokenSecretName = .error e))) ∧
    ((∃ e, (queryToken K E K.NameSpaceCloudCore K.TokenSecretName path).1 = .error e) →
      printed (RunE K E out ⟨path⟩ args).2 = ["failed to get token"]) ∧
    ((∃ token, (queryToken K E K.NameSpaceCloudCore K.TokenSecretName path).1 = .ok token) →
      printed (RunE K E out ⟨path⟩ args).2 = []) := by
  rcases RunE_outcome K E out ⟨path⟩ args with
    ⟨e1, hk, hq, h⟩ | ⟨cfg, e1, hk, hn, hq, h⟩ | ⟨cfg, client, e1, hk, hn, hg, hq, h⟩ |
    ⟨cfg, client, secret, hk, hn, hg, hq, h⟩
  · have hb := (kubeConfig_error_iff K E path e1).1 hk
    rw [hq, h]
    refine ⟨by simp [printed], by simp [hb], fun _ => rfl, ?_⟩
    rintro ⟨t, ht⟩
    cases ht
  · rw [hq, h]
    refine ⟨by simp [printed], ?_, fun _ => rfl, ?_⟩
    · constructor
      · intro _
        exact Or.inr (Or.inl ⟨cfg, e1, hk, hn⟩)
      · intro _
        exact ⟨e1, rfl⟩
    · rintro ⟨t, ht⟩
      cases ht
  · rw [hq, h]
    refine ⟨by simp [printed], ?_, fun _ => rfl, ?_⟩
    · constructor
      · intro _
        exact Or.inr (Or.inr ⟨cfg, client, e1, hk, hn, hg⟩)
      · intro _
        exact ⟨e1, rfl⟩
    · rintro ⟨t, ht⟩
      cases ht
  · rw [hq, h]
    have hb : ∀ e, E.BuildConfigFromFlags "" path ≠ .error e := by
      intro e he
      rw [(kubeConfig_error_iff K E path e).2 he] at hk
      cases hk
    refine ⟨by simp [printed], ?_, ?_, fun _ => rfl⟩
    · constructor
      · rintro ⟨e, he⟩
        cases he
      · rintro (⟨e, he⟩ | ⟨cfg2, e, hk2, hn2⟩ | ⟨cfg2, client2, e, hk2, hn2, hg2⟩)
        · exact absurd he (hb e)
        · rw [hk] at hk2
          cases hk2
          rw [hn] at hn2
          cases hn2
        · rw [hk] at hk2
          cases hk2
          rw [hn] at hn2
          cases hn2
          rw [hg] at hg2
          cases hg2
    · rintro ⟨e, he⟩
      cases he

/-- C9 as amended, at a missing kubeconfig and at a successful fetch whose write
fails. -/
theorem diagnostic_iff_queryToken_fails_witness :
    printed (RunE specConsts (goodEnv none) okWriter ⟨"/no/such/file"⟩ []).2
      = ["failed to get token"] ∧
    printed (RunE specConsts (goodEnv none) brokenWriter ⟨"/root/.kube/config"⟩ []).2 = [] :=
  ⟨(diagnostic_iff_queryToken_fails specConsts (goodEnv none) okWriter "/no/such/file" []).2.2.1
      ⟨⟨"stat /no/such/file: no such file or directory"⟩, by decide⟩,
   (diagnostic_iff_queryToken_fails specConsts (goodEnv none) brokenWriter
      "/root/.kube/config" []).2.2.2 ⟨[], by decide⟩⟩

/-- C9 as stated fails: the line is printed although no get-secret request was
issued, both when configuration loading fails and when client construction
fails. -/
theorem diagnostic_printed_without_a_fetch :
    (requests (RunE specConsts (goodEnv none) okWriter ⟨"/no/such/file"⟩ []).2 = [] ∧
      printed (RunE specConsts (goodEnv none) okWriter ⟨"/no/such/file"⟩ []).2
        = ["failed to get token"]) ∧
    (requests (RunE specConsts noClientEnv okWriter ⟨"/root/.kube/config"⟩ []).2 = [] ∧
      printed (RunE specConsts noClientEnv okWriter ⟨"/root/.kube/config"⟩ []).2
        = ["failed to get token"]) := by
  decide

/-! ## What the user can influence -/

/-- C10: whatever the positional arguments and the options, every get-secret
request of a run is for (NameSpaceCloudCore, TokenSecretName), every byte
sequence handed to the writer is the value under TokenDataName of the secret
that request returned, and two runs that differ only in their positional
arguments have the same log and the same result; with the flag given, the
result is that of RunE on the flag's path alone. -/
theorem only_the_config_path_matters (K : Consts) (E : Env) (out : Writer)
    (init : Option GettokenOptions) (flag : Option String) (args1 args2 : List String) :
    (NewGettoken K E out init).execute flag args1 = (NewGettoken K E out init).execute flag args2 ∧
    (∀ r ∈ requests ((NewGettoken K E out init).execute flag args1).2,
      r = (K.NameSpaceCloudCore, K.TokenSecretName)) ∧
    (∀ d ∈ writes ((NewGettoken K E out init).execute flag args1).2,
      ∃ client secret,
        E.SecretsGet client K.NameSpaceCloudCore K.TokenSecretName = .ok secret ∧
        d = secret.Data.index K.TokenDataName) ∧
    (∀ (init2 : Option GettokenOptions) (p : String),
      (NewGettoken K E out init).execute (some p) args1
        = (NewGettoken K E out init2).execute (some p) args2) := by
  have hex : ∃ o, ∀ args, (NewGettoken K E out init).execute flag args = RunE K E out o args := by
    cases init <;> cases flag <;> exact ⟨_, fun _ => rfl⟩
  obtain ⟨o, ho⟩ := hex
  have hargs : ∀ o a b, RunE K E out o a = RunE K E out o b := fun _ _ _ => rfl
  refine ⟨by rw [ho, ho, hargs o args1 args2], ?_, ?_, ?_⟩
  · rw [ho]
    rcases RunE_outcome K E out o args1 with
      ⟨e1, -, -, h⟩ | ⟨cfg, e1, -, -, -, h⟩ | ⟨cfg, client, e1, -, -, -, -, h⟩ |
      ⟨cfg, client, secret, -, -, -, -, h⟩ <;> rw [h] <;> simp [requests]
  · rw [ho]
    rcases RunE_outcome K E out o args1 with
      ⟨e1, -, -, h⟩ | ⟨cfg, e1, -, -, -, h⟩ | ⟨cfg, client, e1, -, -, -, -, h⟩ |
      ⟨cfg, client, secret, -, -, hg, -, h⟩ <;> rw [h] <;> simp [writes]
    exact ⟨client, secret, hg, rfl⟩
  · intro init2 p
    rw [execute_flag, execute_flag, hargs ⟨p⟩ args1 args2]

end Gettoken
